import Mathlib

/-!
Verification development for the dagster dependency-graph resolution and
run-monitoring subsystem.

Part 1 embeds `create_execution_structure` and `_validate_dependencies` from
`dagster/_core/definitions/node_container.py`.  Python dicts are embedded as
association lists with Python dict-assignment semantics (update in place keeps
the original position, a new key is appended); iteration order is the list
order, matching Python insertion order.  Times elsewhere are rationals.
-/

/-- Lookup in an association list keyed by strings (Python `d.get(k)`). -/
def alookup {α : Type} (m : List (String × α)) (k : String) : Option α :=
  match m with
  | [] => none
  | (k₀, v) :: rest => if k₀ = k then some v else alookup rest k

/-- Python dict assignment `d[k] = v`: replace in place if the key exists,
append otherwise. -/
def updateAssoc {α : Type} (m : List (String × α)) (k : String) (v : α) :
    List (String × α) :=
  if (alookup m k).isSome then
    m.map (fun p => if p.1 = k then (p.1, v) else p)
  else m ++ [(k, v)]

/-- NodeInvocation from `dependency.py` (only the fields the resolver reads:
tags, hook_defs and retry_policy are carried opaquely by the source and never
inspected by the resolution logic embedded here, so they are omitted). -/
structure NodeInvocation where
  name : String
  aliasName : Option String
deriving DecidableEq, Repr

/-- `solid_key_invoc.alias or solid_key_invoc.name`: Python `or` falls back to
the name when the alias is `None` or the empty string (falsy). -/
def aliasOf (inv : NodeInvocation) : String :=
  match inv.aliasName with
  | none => inv.name
  | some a => if a = "" then inv.name else a

/-- A dependency definition: `DependencyDefinition(node, output)` or the
fan-in `MultiDependencyDefinition` over a list of (node, output) pairs.
Modelled from the spec: `dependency.py` is not in src; the spec describes a
single-producer form and a fan-in list form. -/
inductive DepDef where
  | single (node : String) (output : String)
  | multi (deps : List (String × String))
deriving DecidableEq, Repr

/-- `get_node_dependencies`: the (node, output) pairs a dependency resolves to.
Modelled from the spec (`dependency.py` is not in src). -/
def DepDef.get_node_dependencies : DepDef → List (String × String)
  | .single n o => [(n, o)]
  | .multi ds => ds

/-- `is_fan_in`: true exactly for the multi (fan-in) variant.
Modelled from the spec (`dependency.py` is not in src). -/
def DepDef.is_fan_in : DepDef → Bool
  | .single _ _ => false
  | .multi _ => true

/-- An input declared on a node definition: its name, whether its dagster type
supports fan-in, and the display name of that type (used in error payloads). -/
structure InputDef where
  name : String
  supportsFanIn : Bool
  typeName : String
deriving DecidableEq, Repr

/-- A node definition: name, typed inputs, named outputs, and whether it is a
composite (GraphDefinition) or a leaf (OpDefinition).  Only the structure the
resolver consults is embedded. -/
structure NodeDefinition where
  name : String
  inputs : List InputDef
  outputs : List String
  isGraph : Bool
deriving DecidableEq, Repr

def NodeDefinition.has_input (nd : NodeDefinition) (i : String) : Bool :=
  nd.inputs.any (fun d => d.name = i)

def NodeDefinition.has_output (nd : NodeDefinition) (o : String) : Bool :=
  nd.outputs.any (fun d => d = o)

def NodeDefinition.input_def_named (nd : NodeDefinition) (i : String) :
    Option InputDef :=
  nd.inputs.find? (fun d => d.name = i)

/-- A materialized node: the alias becomes the node name, paired with its
definition (GraphNode / OpNode collapse to the `isGraph` flag of the definition;
invocation tags, hooks and retry policy are carried opaquely by the source
and never read by the resolution logic embedded here). -/
structure Node where
  name : String
  definition : NodeDefinition
deriving DecidableEq, Repr

/-- The dependency mapping after key normalization: every key is a
NodeInvocation (a bare string key `s` in the source is normalized to
`NodeInvocation(s)`, i.e. `⟨s, none⟩` here). -/
abbrev DepMapping := List (NodeInvocation × List (String × DepDef))

/-- The auxiliary indexes built by the first loop of
`create_execution_structure`. -/
structure BuildState where
  nameToAliases : List (String × List String)
  aliasToInvocation : List (String × NodeInvocation)
  aliasToName : List (String × String)
  aliasedDeps : List (String × List (String × DepDef))
deriving Repr

/-- `name_to_aliases[name].add(alias)`: set insertion (membership-deduplicated,
insertion-ordered). -/
def addAlias (m : List (String × List String)) (nm a : String) :
    List (String × List String) :=
  match alookup m nm with
  | some s => updateAssoc m nm (if s.contains a then s else s ++ [a])
  | none => m ++ [(nm, [a])]

/-- One iteration of the key-normalization loop of
`create_execution_structure` (lines 156-168 of node_container.py). -/
def buildStep (st : BuildState) (entry : NodeInvocation × List (String × DepDef)) :
    BuildState :=
  let a := aliasOf entry.1
  { nameToAliases := addAlias st.nameToAliases entry.1.name a
    aliasToInvocation := updateAssoc st.aliasToInvocation a entry.1
    aliasToName := updateAssoc st.aliasToName a entry.1.name
    aliasedDeps := updateAssoc st.aliasedDeps a entry.2 }

def buildState (deps : DepMapping) : BuildState :=
  deps.foldl buildStep ⟨[], [], [], []⟩

/-- `_build_graph_node_dict`: one Node per (definition, alias) pair, collected
into a dict keyed by node name (last write wins, as in the dict
comprehension of the source). -/
def build_graph_node_dict (node_defs : List NodeDefinition)
    (nameToAliases : List (String × List String)) : List (String × Node) :=
  let nodes := node_defs.foldl
    (fun acc nd =>
      let uses := (alookup nameToAliases nd.name).getD [nd.name]
      acc ++ uses.map (fun a => Node.mk a nd))
    []
  nodes.foldl (fun d n => updateAssoc d n.name n) []

/-- The definition-error taxonomy of `_validate_dependencies`; each
constructor carries the names its message interpolates. -/
inductive DefErr where
  | circularRef (node input : String)
  | nodeNotFound (node : String)
  | aliasedNodeNotFound (defName : Option String) (nodeAlias : String)
  | missingInput (nodeType node input : String) (available : List String)
  | targetNotFound (target node input : String)
  | missingOutput (target output node input : String)
  | fanInNotSupported (node input typeName : String)
deriving DecidableEq, Repr

/-- The per-dependency checks of `_validate_dependencies`, in source order:
circular self-reference, unknown consuming node (alias-disambiguated), missing
input, unknown target node, missing output, illegal fan-in. -/
def checkDep (node_dict : List (String × Node))
    (alias_to_name : List (String × String))
    (from_node from_input : String) (dep_def : DepDef) (dep : String × String) :
    Option DefErr :=
  if from_node = dep.1 then some (.circularRef from_node from_input)
  else
    match alookup node_dict from_node with
    | none =>
      if alookup alias_to_name from_node = some from_node then
        some (.nodeNotFound from_node)
      else
        some (.aliasedNodeNotFound (alookup alias_to_name from_node) from_node)
    | some fromNode =>
      if !(fromNode.definition.has_input from_input) then
        some (.missingInput (if fromNode.definition.isGraph then "graph" else "op")
          from_node from_input (fromNode.definition.inputs.map (fun d => d.name)))
      else
        match alookup node_dict dep.1 with
        | none => some (.targetNotFound dep.1 from_node from_input)
        | some target =>
          if !(target.definition.has_output dep.2) then
            some (.missingOutput dep.1 dep.2 from_node from_input)
          else
            match fromNode.definition.input_def_named from_input with
            | some idef =>
              if dep_def.is_fan_in && !idef.supportsFanIn then
                some (.fanInNotSupported dep.1 from_input idef.typeName)
              else none
            | none => none

/-- First error produced by `f` over `l`, scanning left to right (the
fail-fast raise of the nested loops of the source). -/
def firstErr {α : Type} (l : List α) (f : α → Option DefErr) : Option DefErr :=
  match l with
  | [] => none
  | x :: xs =>
    match f x with
    | some e => some e
    | none => firstErr xs f

/-- `_validate_dependencies`: scan nodes in mapping order, inputs in insertion
order, dependencies in declaration order; raise (return) the first error. -/
def validateDeps (node_dict : List (String × Node))
    (alias_to_name : List (String × String))
    (dependencies : List (String × List (String × DepDef))) : Option DefErr :=
  firstErr dependencies (fun entry =>
    firstErr entry.2 (fun inp =>
      firstErr inp.2.get_node_dependencies
        (checkDep node_dict alias_to_name entry.1 inp.1 inp.2)))

/-- Modelled from the spec: `DependencyStructure.from_definitions`
(`dependency.py` is not in src).  The resolved structure maps each
(node name, input name) to its list of (producer node, output) pairs. -/
def depStructureFromDefinitions
    (aliased : List (String × List (String × DepDef))) :
    List ((String × String) × List (String × String)) :=
  aliased.foldl
    (fun acc entry =>
      acc ++ entry.2.map (fun inp => ((entry.1, inp.1), inp.2.get_node_dependencies)))
    []

/-- `create_execution_structure`: normalize keys to aliases, build the
auxiliary indexes, materialize nodes, validate, then build the structure.
A raised DagsterInvalidDefinitionError is the `.error` case. -/
def create_execution_structure (node_defs : List NodeDefinition)
    (deps : DepMapping) :
    Except DefErr
      (List ((String × String) × List (String × String)) × List (String × Node)) :=
  let st := buildState deps
  let node_dict := build_graph_node_dict node_defs st.nameToAliases
  match validateDeps node_dict st.aliasToName st.aliasedDeps with
  | some e => .error e
  | none => .ok (depStructureFromDefinitions st.aliasedDeps, node_dict)

def exceptDecEq {ε α : Type} [DecidableEq ε] [DecidableEq α] :
    (a b : Except ε α) → Decidable (a = b)
  | .error a, .error b =>
    if h : a = b then .isTrue (by rw [h]) else .isFalse (fun hh => h (by cases hh; rfl))
  | .error _, .ok _ => .isFalse (fun hh => by cases hh)
  | .ok _, .error _ => .isFalse (fun hh => by cases hh)
  | .ok a, .ok b =>
    if h : a = b then .isTrue (by rw [h]) else .isFalse (fun hh => h (by cases hh; rfl))

instance {ε α : Type} [DecidableEq ε] [DecidableEq α] : DecidableEq (Except ε α) :=
  exceptDecEq

/-- A mapping contains a self-referential dependency: some node X with an
input bound to an output of X itself. -/
def containsSelfRef (m : List (String × List (String × DepDef))) : Bool :=
  m.any (fun entry =>
    entry.2.any (fun inp =>
      inp.2.get_node_dependencies.any (fun d => d.1 = entry.1)))

/-!
Part 2 embeds the run-monitoring daemon from
`dagster/_daemon/monitoring/monitoring_daemon.py`.  Collaborator calls
(instance, launcher, workspace, clock) are embedded as a pure environment;
the side effects a monitoring pass requests are recorded as a trace of
actions, and a Python exception escaping a handler is an `Option MonitorError`
alongside the trace (actions performed before the raise are kept, as they
have already happened when the exception propagates).
-/

inductive RunStatus where
  | NOT_STARTED | QUEUED | STARTING | STARTED | CANCELING | CANCELED
  | SUCCESS | FAILURE
deriving DecidableEq, Repr

def runStatusStr : RunStatus → String
  | .NOT_STARTED => "NOT_STARTED"
  | .QUEUED => "QUEUED"
  | .STARTING => "STARTING"
  | .STARTED => "STARTED"
  | .CANCELING => "CANCELING"
  | .CANCELED => "CANCELED"
  | .SUCCESS => "SUCCESS"
  | .FAILURE => "FAILURE"

inductive WorkerStatus where
  | RUNNING | SUCCESS | NOT_FOUND | FAILED | UNKNOWN
deriving DecidableEq, Repr

def workerStatusStr : WorkerStatus → String
  | .RUNNING => "RUNNING"
  | .SUCCESS => "SUCCESS"
  | .NOT_FOUND => "NOT_FOUND"
  | .FAILED => "FAILED"
  | .UNKNOWN => "UNKNOWN"

/-- `CancellationReason` from `dagster/_core/events.py`.  Modelled from the
spec (`events.py` is not in src); only the member the monitor uses is needed. -/
inductive CancellationReason where
  | TIMED_OUT
deriving DecidableEq, Repr

/-- The durable run record fields the monitor reads: id, status snapshot, the
max-runtime tag (`tags.get(MAX_RUNTIME_TAG)`) and the job name. -/
structure DagsterRun where
  run_id : String
  status : RunStatus
  max_runtime_tag : Option String
  job_name : String
deriving DecidableEq, Repr

/-- A RunRecord: the run plus its storage-level start time (seconds). -/
structure RunRecord where
  dagster_run : DagsterRun
  start_time : Option ℚ
deriving DecidableEq, Repr

/-- The side effects a monitoring pass can request, in the order requested.
`reportEngineEvent` records whether the call passed `engine_event_data` with
an error payload (the termination-failure event does, the resumption event
does not). -/
inductive MAction where
  | logInfo (msg : String)
  | logError (msg : String)
  | reportRunFailed (runId msg : String)
  | reportEngineEvent (msg runId : String) (withErrorData : Bool)
  | resumeRun (runId : String) (attemptNumber : Nat)
  | terminate (runId msg : String)
  | reportRunCanceled (runId msg : String) (reason : CancellationReason)
deriving DecidableEq, Repr

/-- A Python exception escaping a monitoring handler: `check.invariant`,
`check.not_none`, or the `ValueError` from `float()` on a non-numeric tag. -/
inductive MonitorError where
  | checkInvariant (msg : String)
  | checkNotNone (msg : String)
  | valueError (msg : String)
deriving DecidableEq, Repr

/-- Result of one handler: the action trace plus the escaping exception,
if any. -/
abbrev MResult := List MAction × Option MonitorError

/-- The pure environment a monitoring iteration runs against: the clock, the
launcher capabilities and health answers, the run store and event log, and
the monitoring configuration knobs of the instance. -/
structure MonitorEnv where
  now : ℚ
  supportsCheckHealth : Bool
  supportsResumeRun : Bool
  healthOf : String → WorkerStatus
  currentStatus : String → Option RunStatus
  engineEvents : String → List String
  maxResumeAttempts : Nat
  startTimeoutSeconds : ℚ
  launchTime : String → Option ℚ
  terminateRaises : String → Bool

/-- 60 * 60 * 12 seconds (written as a literal so that concrete instances
evaluate by kernel reduction). -/
def DEFAULT_MAX_RUNTIME : ℚ := 43200

def RESUME_RUN_LOG_MESSAGE : String := "Launching a new run worker to resume run"

/-- Accumulate the decimal value of a digit string; `none` on any
non-digit character. -/
def parseDigitsAux (acc : Nat) : List Char → Option Nat
  | [] => some acc
  | c :: cs =>
    if c.isDigit then parseDigitsAux (acc * 10 + (c.toNat - 48)) cs else none

/-- Python `float(s)` on plain decimal literals: optional sign, digits with at
most one decimal point, at least one digit; `none` models the `ValueError`
raise.  (Exponents, infinities and surrounding whitespace are outside the
domain this embedding covers.) -/
def pyFloat (s : String) : Option ℚ :=
  let cs := s.data
  let signed : Bool × List Char :=
    match cs with
    | '-' :: rest => (true, rest)
    | '+' :: rest => (false, rest)
    | l => (false, l)
  let intPart := signed.2.takeWhile (fun c => c ≠ '.')
  match signed.2.dropWhile (fun c => c ≠ '.') with
  | [] =>
    if intPart = [] then none
    else (parseDigitsAux 0 intPart).map
      (fun n => if signed.1 then -(n : ℚ) else (n : ℚ))
  | _ :: frac =>
    if frac.any (fun c => c = '.') then none
    else if intPart = [] && frac = [] then none
    else
      match parseDigitsAux 0 intPart, parseDigitsAux 0 frac with
      | some ip, some fp =>
        let q : ℚ := (ip : ℚ) + (fp : ℚ) / ((10 : ℚ) ^ frac.length)
        some (if signed.1 then -q else q)
      | _, _ => none

/-- `max_time = float(max_time_str) if max_time_str else DEFAULT_MAX_RUNTIME`:
an absent or empty (falsy) tag falls back to the default; a non-numeric tag
is `none` (the `ValueError` raise). -/
def maxRuntimeOf (run : DagsterRun) : Option ℚ :=
  match run.max_runtime_tag with
  | none => some DEFAULT_MAX_RUNTIME
  | some s => if s = "" then some DEFAULT_MAX_RUNTIME else pyFloat s

def timeoutLogMsg (run : DagsterRun) (mt : ℚ) : String :=
  "Run " ++ run.run_id ++ " has exceeded maximum runtime of " ++ toString mt
    ++ " seconds: terminating run."

def TERMINATE_MSG : String := "Run has exceeded maximum allowed runtime."

def TERMINATION_EXC_EVENT_MSG : String :=
  "Exception while attempting to force-terminate run. Run will still be marked as canceled."

def FORCED_CANCELED_MSG : String :=
  "Attempted to terminate this run for exceeding maximum runtime, but run termination failed. Forcibly marked as canceled, computational resources may not have been cleaned up."

/-- `handle_started_run` (monitoring_daemon.py lines 151-195): read the
max-runtime tag (the `float()` conversion happens before the start-time
check), and when the wall-clock time since start exceeds the budget, call
`terminate`; if `terminate` raises, record an engine event carrying the error
and force the run to CANCELED with reason TIMED_OUT. -/
def handle_started_run (env : MonitorEnv) (rec : RunRecord) : MResult :=
  match maxRuntimeOf rec.dagster_run with
  | none => ([], some (.valueError "could not convert string to float"))
  | some mt =>
    match rec.start_time with
    | none => ([], none)
    | some st =>
      if env.now - st > mt then
        let rid := rec.dagster_run.run_id
        let base := [MAction.logInfo (timeoutLogMsg rec.dagster_run mt),
                     MAction.terminate rid TERMINATE_MSG]
        if env.terminateRaises rid then
          (base ++ [MAction.reportEngineEvent TERMINATION_EXC_EVENT_MSG rid true,
                    MAction.reportRunCanceled rid FORCED_CANCELED_MSG
                      CancellationReason.TIMED_OUT], none)
        else (base, none)
      else ([], none)

def startTimeoutMsg (env : MonitorEnv) (run : DagsterRun) (lt : ℚ) : String :=
  "Run " ++ run.run_id ++ " has been running for " ++ toString (env.now - lt)
    ++ " seconds, which is longer than the timeout of "
    ++ toString env.startTimeoutSeconds ++ " seconds to start. Marking run failed"

/-- `monitor_starting_run` (lines 29-51): assert the STARTING snapshot, read
the launch time (`check.not_none` raises when absent), and when the launcher
supports health checks and the elapsed time has reached the start timeout,
report the run failed.  The two `time.time()` reads of the source are one
clock reading here. -/
def monitor_starting_run (env : MonitorEnv) (rec : RunRecord) : MResult :=
  if rec.dagster_run.status ≠ RunStatus.STARTING then
    ([], some (.checkInvariant "run.status == DagsterRunStatus.STARTING"))
  else
    match env.launchTime rec.dagster_run.run_id with
    | none => ([], some (.checkNotNone "Run in status STARTING does not have a launch time."))
    | some lt =>
      if env.supportsCheckHealth && decide (env.now - lt ≥ env.startTimeoutSeconds) then
        let m := startTimeoutMsg env rec.dagster_run lt
        ([MAction.logInfo m, MAction.reportRunFailed rec.dagster_run.run_id m], none)
      else ([], none)

/-- `count_resume_run_attempts` (lines 54-56): count the engine events whose
message is the resume marker. -/
def count_resume_run_attempts (env : MonitorEnv) (run_id : String) : Nat :=
  ((env.engineEvents run_id).filter (fun m => m = RESUME_RUN_LOG_MESSAGE)).length

def isHealthyStatus (w : WorkerStatus) : Bool :=
  match w with
  | .RUNNING => true
  | .SUCCESS => true
  | _ => false

/-- The interpolation of `CheckRunHealthResult` into the monitor messages.
Modelled from the spec (the launcher classes are not in src); the exact text
is not load-bearing, only that the message embeds the health status. -/
def describeHealth (w : WorkerStatus) : String :=
  "CheckRunHealthResult(status=" ++ workerStatusStr w ++ ")"

def staleStatusMsg (old new : RunStatus) : String :=
  "Detected run status changed during monitoring loop: " ++ runStatusStr old
    ++ " -> " ++ runStatusStr new ++ ", disregarding for now"

def resumeMsg (env : MonitorEnv) (rec : RunRecord) : String :=
  "Detected run worker status " ++ describeHealth (env.healthOf rec.dagster_run.run_id)
    ++ ". Resuming run " ++ rec.dagster_run.run_id ++ " with a new worker."

def exhaustedMsg (env : MonitorEnv) (rec : RunRecord) : String :=
  if env.supportsResumeRun then
    "Detected run worker status " ++ describeHealth (env.healthOf rec.dagster_run.run_id)
      ++ ". Marking run " ++ rec.dagster_run.run_id
      ++ " as failed, because it has surpassed the configured maximum attempts to resume the run: "
      ++ toString env.maxResumeAttempts ++ "."
  else
    "Detected run worker status " ++ describeHealth (env.healthOf rec.dagster_run.run_id)
      ++ ". Marking run " ++ rec.dagster_run.run_id ++ " as failed."

/-- `monitor_started_run` (lines 59-108): assert the STARTED snapshot; when
the launcher supports health checks and the worker is unhealthy, either skip
(status changed since the snapshot: early return, so `handle_started_run` is
NOT reached), resume with attempt number priorCount + 1, or report the run
failed (resume budget exhausted); in every non-skipping path fall through to
`handle_started_run`. -/
def monitor_started_run (env : MonitorEnv) (rec : RunRecord) : MResult :=
  if rec.dagster_run.status ≠ RunStatus.STARTED then
    ([], some (.checkInvariant "run.status == DagsterRunStatus.STARTED"))
  else
    let rid := rec.dagster_run.run_id
    if env.supportsCheckHealth then
      if !(isHealthyStatus (env.healthOf rid)) then
        let n := count_resume_run_attempts env rid
        match env.currentStatus rid with
        | none => ([], some (.checkNotNone "instance.get_run_by_id(run.run_id)"))
        | some cur =>
          if rec.dagster_run.status ≠ cur then
            ([MAction.logInfo (staleStatusMsg rec.dagster_run.status cur)], none)
          else if n < env.maxResumeAttempts then
            let m := resumeMsg env rec
            let h := handle_started_run env rec
            ([MAction.logInfo m, MAction.reportEngineEvent m rid false,
              MAction.resumeRun rid (n + 1)] ++ h.1, h.2)
          else
            let m := exhaustedMsg env rec
            let h := handle_started_run env rec
            ([MAction.logInfo m, MAction.reportRunFailed rid m] ++ h.1, h.2)
      else handle_started_run env rec
    else handle_started_run env rec

/-- The status dispatch of the per-run try block of
`execute_monitoring_iteration` (lines 132-140): CANCELING is a no-op and any
other non-handled status is a failed `check.invariant`. -/
def dispatchRun (env : MonitorEnv) (rec : RunRecord) : MResult :=
  match rec.dagster_run.status with
  | .STARTING => monitor_starting_run env rec
  | .STARTED => monitor_started_run env rec
  | .CANCELING => ([], none)
  | _ => ([], some (.checkInvariant "Unexpected run status"))

/-- The body of the per-run try block of `execute_monitoring_iteration`
(lines 128-140): log the check, then dispatch on the status snapshot. -/
def processRun (env : MonitorEnv) (rec : RunRecord) : MResult :=
  (MAction.logInfo ("Checking run " ++ rec.dagster_run.run_id) :: (dispatchRun env rec).1,
   (dispatchRun env rec).2)

/-- The per-record loop of `execute_monitoring_iteration`: each record yields
its serializable error descriptor when its handler raised (plus an error log
entry), and an empty marker (`none`) otherwise; the loop always continues to
the next record. -/
def monitorLoop (env : MonitorEnv) : List RunRecord → List (Option MonitorError) × List MAction
  | [] => ([], [])
  | r :: rs =>
    let res := processRun env r
    let rest := monitorLoop env rs
    match res.2 with
    | some e =>
      (some e :: rest.1,
        res.1 ++ [MAction.logError ("Hit error while monitoring run " ++ r.dagster_run.run_id)]
          ++ rest.2)
    | none => (none :: rest.1, res.1 ++ rest.2)

/-- `execute_monitoring_iteration` (lines 111-148): an empty fetch returns
immediately; otherwise log the collection count and run the per-record loop.
The first component is the sequence of yielded values, the second the action
trace. -/
def execute_monitoring_iteration (env : MonitorEnv) (records : List RunRecord) :
    List (Option MonitorError) × List MAction :=
  match records with
  | [] => ([], [])
  | _ =>
    let loop := monitorLoop env records
    (loop.1,
      MAction.logInfo ("Collected " ++ toString records.length ++ " runs for monitoring")
        :: loop.2)

/-- An action that transitions the run status: `report_run_failed` or
`report_run_canceled` (resume and engine events do not change the status). -/
def isTransition : MAction → Bool
  | .reportRunFailed _ _ => true
  | .reportRunCanceled _ _ _ => true
  | _ => false

def isResumeCall : MAction → Bool
  | .resumeRun _ _ => true
  | _ => false

def isTerminateCall : MAction → Bool
  | .terminate _ _ => true
  | _ => false

/-- The condition under which `monitor_started_run` returns before reaching
`handle_started_run`: health checks supported, worker unhealthy, and the
re-fetched status missing or different from the snapshot. -/
def startedRunSkipsRuntimeCheck (env : MonitorEnv) (rec : RunRecord) : Bool :=
  env.supportsCheckHealth &&
  !(isHealthyStatus (env.healthOf rec.dagster_run.run_id)) &&
  (match env.currentStatus rec.dagster_run.run_id with
   | none => true
   | some cur => decide (rec.dagster_run.status ≠ cur))

/-!
Concrete fixtures used by counterexamples and witnesses.
-/

def fooDef : NodeDefinition := ⟨"foo", [], [], false⟩

def barDef : NodeDefinition := ⟨"bar", [], [], false⟩

def consumerDef : NodeDefinition := ⟨"consumer", [⟨"in_1", false, "Any"⟩], [], false⟩

def aDef : NodeDefinition := ⟨"a", [⟨"in_1", false, "Any"⟩], ["result"], false⟩

def bDef : NodeDefinition := ⟨"b", [⟨"in_1", false, "Any"⟩], ["result"], false⟩

/-- A mapping whose first scanned node has an unknown dependency target and
whose second node depends on its own output. -/
def selfRefMapping : DepMapping :=
  [(⟨"a", none⟩, [("in_1", DepDef.single "ghost" "result")]),
   (⟨"b", none⟩, [("in_1", DepDef.single "b" "result")])]

/-- A mapping in which the absent dependency target "al" is a known alias of
the definition name "missing". -/
def aliasTargetMapping : DepMapping :=
  [(⟨"missing", some "al"⟩, []),
   (⟨"consumer", none⟩, [("in_1", DepDef.single "al" "result")])]

/-- STARTED run, default max-runtime budget, started at time 0. -/
def rec2 : RunRecord := ⟨⟨"r2", .STARTED, none, "job"⟩, some 0⟩

/-- Environment whose unhealthy branch sees the re-fetched status CANCELING,
long after the default max-runtime budget has been exceeded. -/
def env2 : MonitorEnv :=
  { now := 100000
    supportsCheckHealth := true
    supportsResumeRun := true
    healthOf := fun _ => .NOT_FOUND
    currentStatus := fun _ => some .CANCELING
    engineEvents := fun _ => []
    maxResumeAttempts := 3
    startTimeoutSeconds := 180
    launchTime := fun _ => some 0
    terminateRaises := fun _ => false }

/-- STARTED run whose max-runtime tag is not a numeric string. -/
def rec3 : RunRecord := ⟨⟨"r3", .STARTED, some "oops", "job"⟩, some 0⟩

/-- Environment whose unhealthy branch has exhausted the resume budget. -/
def env3 : MonitorEnv :=
  { now := 100
    supportsCheckHealth := true
    supportsResumeRun := true
    healthOf := fun _ => .FAILED
    currentStatus := fun _ => some .STARTED
    engineEvents := fun _ => []
    maxResumeAttempts := 0
    startTimeoutSeconds := 180
    launchTime := fun _ => some 0
    terminateRaises := fun _ => false }

/-- STARTED run with no recorded start time. -/
def rec4 : RunRecord := ⟨⟨"r4", .STARTED, none, "job"⟩, none⟩

/-- Environment whose unhealthy branch still has resume budget. -/
def env4 : MonitorEnv :=
  { now := 100
    supportsCheckHealth := true
    supportsResumeRun := true
    healthOf := fun _ => .NOT_FOUND
    currentStatus := fun _ => some .STARTED
    engineEvents := fun _ => []
    maxResumeAttempts := 1
    startTimeoutSeconds := 180
    launchTime := fun _ => some 0
    terminateRaises := fun _ => false }

/-- STARTED healthy-worker run far past the default max-runtime budget. -/
def rec5 : RunRecord := ⟨⟨"r5", .STARTED, none, "job"⟩, some 0⟩

/-- Environment in which `terminate` raises. -/
def env5 : MonitorEnv :=
  { now := 100000
    supportsCheckHealth := true
    supportsResumeRun := true
    healthOf := fun _ => .RUNNING
    currentStatus := fun _ => some .STARTED
    engineEvents := fun _ => []
    maxResumeAttempts := 3
    startTimeoutSeconds := 180
    launchTime := fun _ => some 0
    terminateRaises := fun _ => true }

/-- STARTING run. -/
def rec8 : RunRecord := ⟨⟨"r8", .STARTING, none, "job"⟩, none⟩

/-- Environment in which the start timeout has elapsed. -/
def env8 : MonitorEnv :=
  { now := 200
    supportsCheckHealth := true
    supportsResumeRun := true
    healthOf := fun _ => .RUNNING
    currentStatus := fun _ => some .STARTING
    engineEvents := fun _ => []
    maxResumeAttempts := 3
    startTimeoutSeconds := 180
    launchTime := fun _ => some 0
    terminateRaises := fun _ => false }

/-- As `env8` but the launcher does not support health checks. -/
def env8b : MonitorEnv :=
  { env8 with supportsCheckHealth := false }

/-!
Helper lemmas (shared; none of these is a claim theorem).
-/

theorem firstErr_eq_none {α : Type} {l : List α} {f : α → Option DefErr}
    (h : firstErr l f = none) : ∀ x ∈ l, f x = none := by
  induction l with
  | nil => intro x hx; cases hx
  | cons y ys ih =>
    intro x hx
    unfold firstErr at h
    cases hfy : f y with
    | some e => rw [hfy] at h; cases h
    | none =>
      rw [hfy] at h
      rcases List.mem_cons.mp hx with rfl | hx
      · exact hfy
      · exact ih h x hx

/-- Every result `handle_started_run` can produce: the ValueError raise with
an empty trace, a no-op, the terminate request, or the terminate request
followed by the forced cancellation. -/
theorem handle_started_run_shape (env : MonitorEnv) (rec : RunRecord) :
    handle_started_run env rec =
      ([], some (MonitorError.valueError "could not convert string to float")) ∨
    handle_started_run env rec = ([], none) ∨
    (∃ mt, handle_started_run env rec =
      ([MAction.logInfo (timeoutLogMsg rec.dagster_run mt),
        MAction.terminate rec.dagster_run.run_id TERMINATE_MSG], none)) ∨
    (∃ mt, handle_started_run env rec =
      ([MAction.logInfo (timeoutLogMsg rec.dagster_run mt),
        MAction.terminate rec.dagster_run.run_id TERMINATE_MSG,
        MAction.reportEngineEvent TERMINATION_EXC_EVENT_MSG rec.dagster_run.run_id true,
        MAction.reportRunCanceled rec.dagster_run.run_id FORCED_CANCELED_MSG
          CancellationReason.TIMED_OUT], none)) := by
  unfold handle_started_run
  cases hm : maxRuntimeOf rec.dagster_run with
  | none => left; rfl
  | some mt =>
    cases hs : rec.start_time with
    | none => right; left; rfl
    | some st =>
      by_cases hgt : env.now - st > mt
      · by_cases hra : env.terminateRaises rec.dagster_run.run_id = true
        · right; right; right; exact ⟨mt, by simp [hgt, hra]⟩
        · right; right; left; exact ⟨mt, by simp [hgt, hra]⟩
      · right; left; simp [hgt]

/-- When `handle_started_run` raises, it has performed no action. -/
theorem handle_exn_trace_nil (env : MonitorEnv) (rec : RunRecord)
    (h : ((handle_started_run env rec).2).isSome = true) :
    (handle_started_run env rec).1 = [] := by
  rcases handle_started_run_shape env rec with he | he | ⟨mt, he⟩ | ⟨mt, he⟩ <;>
    rw [he] <;> rw [he] at h <;> simp_all

/-- `handle_started_run` never requests a resume. -/
theorem handle_no_resume (env : MonitorEnv) (rec : RunRecord) :
    (handle_started_run env rec).1.filter isResumeCall = [] := by
  rcases handle_started_run_shape env rec with he | he | ⟨mt, he⟩ | ⟨mt, he⟩ <;>
    rw [he] <;> simp [isResumeCall]

/-- `handle_started_run` never records an engine event without error data. -/
theorem handle_count_plain_event (env : MonitorEnv) (rec : RunRecord)
    (m r : String) :
    (handle_started_run env rec).1.count (MAction.reportEngineEvent m r false) = 0 := by
  rcases handle_started_run_shape env rec with he | he | ⟨mt, he⟩ | ⟨mt, he⟩ <;>
    rw [he] <;> simp [List.count_cons]

/-- Every result `monitor_starting_run` can produce. -/
theorem monitor_starting_run_shape (env : MonitorEnv) (rec : RunRecord) :
    monitor_starting_run env rec =
      ([], some (MonitorError.checkInvariant "run.status == DagsterRunStatus.STARTING")) ∨
    monitor_starting_run env rec =
      ([], some (MonitorError.checkNotNone
        "Run in status STARTING does not have a launch time.")) ∨
    monitor_starting_run env rec = ([], none) ∨
    (∃ lt, monitor_starting_run env rec =
      ([MAction.logInfo (startTimeoutMsg env rec.dagster_run lt),
        MAction.reportRunFailed rec.dagster_run.run_id
          (startTimeoutMsg env rec.dagster_run lt)], none)) := by
  unfold monitor_starting_run
  by_cases hst : rec.dagster_run.status ≠ RunStatus.STARTING
  · left; simp [hst]
  · cases hlt : env.launchTime rec.dagster_run.run_id with
    | none => right; left; simp [hst, hlt]
    | some lt =>
      by_cases hb : (env.supportsCheckHealth &&
          decide (env.now - lt ≥ env.startTimeoutSeconds)) = true
      · right; right; right; exact ⟨lt, by simp [hst, hlt, hb]⟩
      · right; right; left; simp [hst, hlt, hb]

/-- Every result `monitor_started_run` can produce: an invariant or not-none
raise, the stale-status early return, or one of the three fall-through paths
into `handle_started_run` (healthy or unchecked, resume, exhausted). -/
theorem monitor_started_run_shape (env : MonitorEnv) (rec : RunRecord) :
    monitor_started_run env rec =
      ([], some (MonitorError.checkInvariant "run.status == DagsterRunStatus.STARTED")) ∨
    monitor_started_run env rec =
      ([], some (MonitorError.checkNotNone "instance.get_run_by_id(run.run_id)")) ∨
    (∃ cur, monitor_started_run env rec =
      ([MAction.logInfo (staleStatusMsg rec.dagster_run.status cur)], none)) ∨
    monitor_started_run env rec = handle_started_run env rec ∨
    monitor_started_run env rec =
      ([MAction.logInfo (resumeMsg env rec),
        MAction.reportEngineEvent (resumeMsg env rec) rec.dagster_run.run_id false,
        MAction.resumeRun rec.dagster_run.run_id
          (count_resume_run_attempts env rec.dagster_run.run_id + 1)]
        ++ (handle_started_run env rec).1, (handle_started_run env rec).2) ∨
    monitor_started_run env rec =
      ([MAction.logInfo (exhaustedMsg env rec),
        MAction.reportRunFailed rec.dagster_run.run_id (exhaustedMsg env rec)]
        ++ (handle_started_run env rec).1, (handle_started_run env rec).2) := by
  unfold monitor_started_run
  by_cases hst : rec.dagster_run.status ≠ RunStatus.STARTED
  · left; simp [hst]
  · cases hsc : env.supportsCheckHealth with
    | false => right; right; right; left; simp [hst]
    | true =>
      cases hh : isHealthyStatus (env.healthOf rec.dagster_run.run_id) with
      | true => right; right; right; left; simp [hst, hh]
      | false =>
        cases hcur : env.currentStatus rec.dagster_run.run_id with
        | none => right; left; simp [hst, hh, hcur]
        | some cur =>
          by_cases hch : rec.dagster_run.status ≠ cur
          · right; right; left; exact ⟨cur, by simp [hst, hh, hcur, hch]⟩
          · by_cases hn : count_resume_run_attempts env rec.dagster_run.run_id <
                env.maxResumeAttempts
            · right; right; right; right; left; simp [hst, hh, hcur, hch, hn]
            · right; right; right; right; right; simp [hst, hh, hcur, hch, hn]

/-!
Claim theorems.
-/

/-- C1 (counterexample): two distinct NodeInvocations resolving to the same
alias string "foo" are not rejected: `create_execution_structure` produces a
structure instead of raising a definition error. -/
theorem c1_alias_collision_not_rejected :
    (⟨"foo", none⟩ : NodeInvocation) ≠ ⟨"bar", some "foo"⟩ ∧
    aliasOf ⟨"foo", none⟩ = aliasOf ⟨"bar", some "foo"⟩ ∧
    (create_execution_structure [fooDef, barDef]
      [(⟨"foo", none⟩, []), (⟨"bar", some "foo"⟩, [])]).toOption.isSome = true := by
  decide

/-- C1 (amended): alias uniqueness is not enforced.  When two invocations in
one dependency mapping resolve to the same alias, the later entry silently
overwrites the earlier one in the alias-keyed dependency dict and in the
alias-to-definition-name index (Python dict assignment), and resolution
proceeds with only the later invocation. -/
theorem c1_alias_collision_last_wins (n1 n2 : NodeInvocation)
    (d1 d2 : List (String × DepDef)) (h : aliasOf n1 = aliasOf n2) :
    (buildState [(n1, d1), (n2, d2)]).aliasedDeps = [(aliasOf n1, d2)] ∧
    (buildState [(n1, d1), (n2, d2)]).aliasToName = [(aliasOf n1, n2.name)] := by
  constructor <;>
    simp [buildState, buildStep, updateAssoc, alookup, ← h]

/-- C1 (witness for the amended theorem at a concrete collision). -/
theorem c1_alias_collision_last_wins_witness :
    (buildState [((⟨"foo", none⟩ : NodeInvocation), []),
                 ((⟨"bar", some "foo"⟩ : NodeInvocation), [])]).aliasedDeps =
      [(aliasOf ⟨"foo", none⟩, [])] ∧
    (buildState [((⟨"foo", none⟩ : NodeInvocation), []),
                 ((⟨"bar", some "foo"⟩ : NodeInvocation), [])]).aliasToName =
      [(aliasOf ⟨"foo", none⟩, "bar")] :=
  c1_alias_collision_last_wins ⟨"foo", none⟩ ⟨"bar", some "foo"⟩ [] [] (by decide)

/-- C6 (counterexample): (a) a mapping key naming an absent node but carrying
no dependencies resolves without any error; (b) an absent dependency target
"al" that is a known alias of the different definition name "missing" is
reported with the generic unknown-node error, which does not name the
aliasing relationship. -/
theorem c6_unknown_node_counterexample :
    (create_execution_structure [] [(⟨"ghost", none⟩, [])]).toOption.isSome = true ∧
    alookup (buildState aliasTargetMapping).aliasToName "al" = some "missing" ∧
    "missing" ≠ "al" ∧
    create_execution_structure [consumerDef] aliasTargetMapping =
      .error (DefErr.targetNotFound "al" "consumer" "in_1") := by
  decide

/-- C6 (amended): an absent node name produces an unknown-node error when the
validation scan reaches a dependency whose consuming node it is; the error
names the aliasing relationship exactly when the consuming alias maps to a
different definition name in the alias index (absent dependency targets get
the generic error, and dependency-free mapping keys are never checked). -/
theorem c6_unknown_consuming_node (nd : List (String × Node))
    (a2n : List (String × String)) (f i t o : String)
    (more : List (String × DepDef))
    (rest : List (String × List (String × DepDef)))
    (h1 : t ≠ f) (h2 : alookup nd f = none) :
    validateDeps nd a2n ((f, (i, DepDef.single t o) :: more) :: rest) =
      some (if alookup a2n f = some f then DefErr.nodeNotFound f
            else DefErr.aliasedNodeNotFound (alookup a2n f) f) := by
  have h1s : f ≠ t := fun hh => h1 hh.symm
  by_cases hc : alookup a2n f = some f <;>
    simp [validateDeps, firstErr, checkDep, DepDef.get_node_dependencies, h1s, h2, hc]

/-- C6 (witness for the amended theorem: the consuming alias "x" stands for
the definition name "u", and the error names that relationship). -/
theorem c6_unknown_consuming_node_witness :
    validateDeps [] [("x", "u")] [("x", [("in_1", DepDef.single "t" "o")])] =
      some (if alookup [("x", "u")] "x" = some "x" then DefErr.nodeNotFound "x"
            else DefErr.aliasedNodeNotFound (alookup [("x", "u")] "x") "x") :=
  c6_unknown_consuming_node [] [("x", "u")] "x" "in_1" "t" "o" [] []
    (by decide) (by decide)

/-- C9 (counterexample): `selfRefMapping` binds an input of node "b" to an
output of "b" itself, yet resolution reports the unknown-target error found earlier in the
scan, not a circular-reference error naming "b". -/
theorem c9_self_reference_counterexample :
    containsSelfRef (buildState selfRefMapping).aliasedDeps = true ∧
    create_execution_structure [aDef, bDef] selfRefMapping =
      .error (DefErr.targetNotFound "ghost" "a" "in_1") := by
  decide

/-- C9 (amended): a mapping containing a self-referential dependency never
resolves — validation always reports some error — and the error is the
circular-reference error naming the node and the offending input whenever the
self-reference is the first dependency scanned (fail-fast: an earlier
violation in scan order is reported instead). -/
theorem c9_self_reference_fails :
    (∀ (node_defs : List NodeDefinition) (deps : DepMapping),
      containsSelfRef (buildState deps).aliasedDeps = true →
      ∃ e, create_execution_structure node_defs deps = .error e) ∧
    (∀ (nd : List (String × Node)) (a2n : List (String × String))
      (f i : String) (dd : DepDef) (o : String) (ds : List (String × String))
      (ins : List (String × DepDef)) (rest : List (String × List (String × DepDef))),
      dd.get_node_dependencies = (f, o) :: ds →
      validateDeps nd a2n ((f, (i, dd) :: ins) :: rest) =
        some (DefErr.circularRef f i)) := by
  constructor
  · intro node_defs deps hm
    have hval : (validateDeps
        (build_graph_node_dict node_defs (buildState deps).nameToAliases)
        (buildState deps).aliasToName (buildState deps).aliasedDeps).isSome = true := by
      by_contra hno
      rw [Option.not_isSome_iff_eq_none] at hno
      obtain ⟨entry, hentry, hin⟩ := List.any_eq_true.mp hm
      obtain ⟨inp, hinp, hd⟩ := List.any_eq_true.mp hin
      obtain ⟨d, hdmem, hdeq⟩ := List.any_eq_true.mp hd
      have h1 := firstErr_eq_none hno entry hentry
      have h2 := firstErr_eq_none h1 inp hinp
      have h3 := firstErr_eq_none h2 d hdmem
      have hself : d.1 = entry.1 := by simpa using hdeq
      simp [checkDep, hself] at h3
    obtain ⟨e, he⟩ := Option.isSome_iff_exists.mp hval
    refine ⟨e, ?_⟩
    simp only [create_execution_structure]
    rw [he]
  · intro nd a2n f i dd o ds ins rest hdd
    simp [validateDeps, firstErr, checkDep, hdd]

/-- C9 (witness for the amended theorem at a concrete self-reference). -/
theorem c9_self_reference_fails_witness :
    (∃ e, create_execution_structure [bDef]
      [(⟨"b", none⟩, [("in_1", DepDef.single "b" "result")])] = .error e) ∧
    validateDeps [] [] [("b", [("in_1", DepDef.single "b" "result")])] =
      some (DefErr.circularRef "b" "in_1") :=
  ⟨c9_self_reference_fails.1 [bDef]
      [(⟨"b", none⟩, [("in_1", DepDef.single "b" "result")])] (by decide),
   c9_self_reference_fails.2 [] [] "b" "in_1" (DepDef.single "b" "result")
      "result" [] [] [] (by decide)⟩

/-- C10: for a STARTED run record with no recorded start time, the
max-runtime handling performs no action at all — no terminate call, no
engine event, no status transition, no log entry — regardless of the
max-runtime tag value (even an unparsable tag, which makes the handler
raise, produces an empty action trace). -/
theorem c10_no_start_time_no_action (env : MonitorEnv) (rec : RunRecord)
    (h : rec.start_time = none) :
    (handle_started_run env rec).1 = [] := by
  unfold handle_started_run
  cases hm : maxRuntimeOf rec.dagster_run with
  | none => rfl
  | some mt => rw [h]

/-- C10 (witness): concrete run with no start time, applied through the
theorem. -/
theorem c10_no_start_time_no_action_witness :
    (handle_started_run env4 rec4).1 = [] :=
  c10_no_start_time_no_action env4 rec4 (by decide)

/-- C5: a STARTED run whose known start time lies more than its max-runtime
budget in the past gets exactly a terminate request (after the log entry);
and when `terminate` raises, additionally exactly one engine event describing
the termination failure and one forced CANCELED transition with reason
TIMED_OUT — the run is never left without a transition when termination
fails. -/
theorem c5_max_runtime_terminate (env : MonitorEnv) (rec : RunRecord)
    (st mt : ℚ) (h1 : rec.start_time = some st)
    (h2 : maxRuntimeOf rec.dagster_run = some mt) (h3 : env.now - st > mt) :
    handle_started_run env rec =
      (if env.terminateRaises rec.dagster_run.run_id then
        [MAction.logInfo (timeoutLogMsg rec.dagster_run mt),
         MAction.terminate rec.dagster_run.run_id TERMINATE_MSG,
         MAction.reportEngineEvent TERMINATION_EXC_EVENT_MSG rec.dagster_run.run_id true,
         MAction.reportRunCanceled rec.dagster_run.run_id FORCED_CANCELED_MSG
           CancellationReason.TIMED_OUT]
       else
        [MAction.logInfo (timeoutLogMsg rec.dagster_run mt),
         MAction.terminate rec.dagster_run.run_id TERMINATE_MSG], none) := by
  unfold handle_started_run
  rw [h2, h1]
  by_cases hra : env.terminateRaises rec.dagster_run.run_id = true <;>
    simp [h3, hra]

/-- C5 (witness): concrete over-budget run in an environment whose
`terminate` raises. -/
theorem c5_max_runtime_terminate_witness :
    handle_started_run env5 rec5 =
      (if env5.terminateRaises rec5.dagster_run.run_id then
        [MAction.logInfo (timeoutLogMsg rec5.dagster_run DEFAULT_MAX_RUNTIME),
         MAction.terminate rec5.dagster_run.run_id TERMINATE_MSG,
         MAction.reportEngineEvent TERMINATION_EXC_EVENT_MSG rec5.dagster_run.run_id true,
         MAction.reportRunCanceled rec5.dagster_run.run_id FORCED_CANCELED_MSG
           CancellationReason.TIMED_OUT]
       else
        [MAction.logInfo (timeoutLogMsg rec5.dagster_run DEFAULT_MAX_RUNTIME),
         MAction.terminate rec5.dagster_run.run_id TERMINATE_MSG], none) :=
  c5_max_runtime_terminate env5 rec5 0 DEFAULT_MAX_RUNTIME rfl rfl
    (by norm_num [env5, DEFAULT_MAX_RUNTIME])

/-- C8: a STARTING run with a known launch time is transitioned to FAILURE by
exactly one report_run_failed (carrying the descriptive timeout message) when
the launcher supports health checks and the elapsed time has reached the
start timeout; below the timeout, or without health-check support, the run is
not transitioned (the handler performs no action at all). -/
theorem c8_starting_timeout (env : MonitorEnv) (rec : RunRecord) (lt : ℚ)
    (h1 : rec.dagster_run.status = RunStatus.STARTING)
    (h2 : env.launchTime rec.dagster_run.run_id = some lt) :
    ((env.supportsCheckHealth = true ∧ env.startTimeoutSeconds ≤ env.now - lt) →
      (monitor_starting_run env rec).1.filter isTransition =
        [MAction.reportRunFailed rec.dagster_run.run_id
          (startTimeoutMsg env rec.dagster_run lt)]) ∧
    ((env.supportsCheckHealth = false ∨ env.now - lt < env.startTimeoutSeconds) →
      monitor_starting_run env rec = ([], none)) := by
  unfold monitor_starting_run
  rw [h1, h2]
  constructor
  · rintro ⟨hsc, hto⟩
    simp [hsc, hto, isTransition]
  · rintro (hsc | hto)
    · simp [hsc]
    · simp [not_le.mpr hto]

/-- C8 (witness): the same STARTING run past the timeout, once with a
health-checking launcher (one FAILURE transition) and once without (no
action). -/
theorem c8_starting_timeout_witness :
    (monitor_starting_run env8 rec8).1.filter isTransition =
      [MAction.reportRunFailed rec8.dagster_run.run_id
        (startTimeoutMsg env8 rec8.dagster_run 0)] ∧
    monitor_starting_run env8b rec8 = ([], none) :=
  ⟨(c8_starting_timeout env8 rec8 0 rfl rfl).1 ⟨rfl, by norm_num [env8]⟩,
   (c8_starting_timeout env8b rec8 0 rfl rfl).2 (Or.inl rfl)⟩

/-- C7: one monitoring iteration yields exactly one result per fetched run
record, in the fetched order: the error descriptor of the handler of that
record when it raised, and the empty marker otherwise — so an exception in the
handler of one run never prevents the remaining runs from being processed. -/
theorem c7_one_yield_per_record (env : MonitorEnv) (records : List RunRecord) :
    (execute_monitoring_iteration env records).1 =
      records.map (fun r => (processRun env r).2) := by
  have hloop : ∀ rs : List RunRecord,
      (monitorLoop env rs).1 = rs.map (fun r => (processRun env r).2) := by
    intro rs
    induction rs with
    | nil => rfl
    | cons r rs ih =>
      simp only [monitorLoop, List.map]
      cases hx : (processRun env r).2 <;> simp [hx, ih]
  cases records with
  | nil => rfl
  | cons r rs =>
    simp only [execute_monitoring_iteration]
    exact hloop (r :: rs)

/-- C2 (counterexample): a STARTED run whose start time lies far past the
default max-runtime budget, whose launcher supports health checks and whose
unhealthy branch observes a changed (CANCELING) re-fetched status: the
monitoring attempt completes without exception, yet performs only the stale
log entry — in particular no terminate request, so the max-runtime
evaluation was not performed. -/
theorem c2_health_branch_skips_runtime_check :
    rec2.dagster_run.status = RunStatus.STARTED ∧
    rec2.start_time = some 0 ∧
    maxRuntimeOf rec2.dagster_run = some DEFAULT_MAX_RUNTIME ∧
    env2.now - 0 > DEFAULT_MAX_RUNTIME ∧
    monitor_started_run env2 rec2 =
      ([MAction.logInfo (staleStatusMsg RunStatus.STARTED RunStatus.CANCELING)], none) := by
  refine ⟨rfl, rfl, rfl, by norm_num [env2, DEFAULT_MAX_RUNTIME], ?_⟩
  decide

/-- C2 (amended): for a STARTED run the max-runtime evaluation
(`handle_started_run`) is always performed — its actions and its exception
are exactly the tail of the attempt — regardless of health-check support and
of the health result, except when the unhealthy branch observes the
re-fetched run status missing or different from the snapshot, in which case
the handler returns early and skips the evaluation for that iteration. -/
theorem c2_runtime_check_reached (env : MonitorEnv) (rec : RunRecord)
    (h1 : rec.dagster_run.status = RunStatus.STARTED)
    (h2 : startedRunSkipsRuntimeCheck env rec = false) :
    ∃ pre, monitor_started_run env rec =
      (pre ++ (handle_started_run env rec).1, (handle_started_run env rec).2) := by
  unfold monitor_started_run
  rw [h1]
  unfold startedRunSkipsRuntimeCheck at h2
  rw [h1] at h2
  cases hsc : env.supportsCheckHealth with
  | false => exact ⟨[], by simp⟩
  | true =>
    rw [hsc] at h2
    cases hh : isHealthyStatus (env.healthOf rec.dagster_run.run_id) with
    | true => exact ⟨[], by simp [hh]⟩
    | false =>
      rw [hh] at h2
      cases hcur : env.currentStatus rec.dagster_run.run_id with
      | none => rw [hcur] at h2; cases h2
      | some cur =>
        rw [hcur] at h2
        have hcs : RunStatus.STARTED = cur := by simpa using h2
        by_cases hn : count_resume_run_attempts env rec.dagster_run.run_id <
            env.maxResumeAttempts
        · exact ⟨[MAction.logInfo (resumeMsg env rec),
            MAction.reportEngineEvent (resumeMsg env rec) rec.dagster_run.run_id false,
            MAction.resumeRun rec.dagster_run.run_id
              (count_resume_run_attempts env rec.dagster_run.run_id + 1)],
            by simp [hh, hcur, ← hcs, hn]⟩
        · exact ⟨[MAction.logInfo (exhaustedMsg env rec),
            MAction.reportRunFailed rec.dagster_run.run_id (exhaustedMsg env rec)],
            by simp [hh, hcur, ← hcs, hn]⟩

/-- C2 (witness for the amended theorem: healthy worker, so the attempt is
exactly the max-runtime evaluation). -/
theorem c2_runtime_check_reached_witness :
    startedRunSkipsRuntimeCheck env5 rec5 = false ∧
    ∃ pre, monitor_started_run env5 rec5 =
      (pre ++ (handle_started_run env5 rec5).1, (handle_started_run env5 rec5).2) :=
  ⟨by decide, c2_runtime_check_reached env5 rec5 rfl (by decide)⟩

/-- C4: a STARTED run with health checks supported, an unhealthy worker
result, an unchanged re-fetched status, and a prior resume-attempt count
below max-resume-attempts gets exactly one resume_run call with
attemptNumber = priorCount + 1, and exactly one engine event recording the
resumption (the event carrying the resumption message and no error data). -/
theorem c4_unhealthy_resume (env : MonitorEnv) (rec : RunRecord)
    (h1 : rec.dagster_run.status = RunStatus.STARTED)
    (h2 : env.supportsCheckHealth = true)
    (h3 : isHealthyStatus (env.healthOf rec.dagster_run.run_id) = false)
    (h4 : env.currentStatus rec.dagster_run.run_id = some RunStatus.STARTED)
    (h5 : count_resume_run_attempts env rec.dagster_run.run_id <
      env.maxResumeAttempts) :
    (monitor_started_run env rec).1.filter isResumeCall =
      [MAction.resumeRun rec.dagster_run.run_id
        (count_resume_run_attempts env rec.dagster_run.run_id + 1)] ∧
    (monitor_started_run env rec).1.count
      (MAction.reportEngineEvent (resumeMsg env rec) rec.dagster_run.run_id false)
      = 1 := by
  have heq : monitor_started_run env rec =
      ([MAction.logInfo (resumeMsg env rec),
        MAction.reportEngineEvent (resumeMsg env rec) rec.dagster_run.run_id false,
        MAction.resumeRun rec.dagster_run.run_id
          (count_resume_run_attempts env rec.dagster_run.run_id + 1)]
        ++ (handle_started_run env rec).1,
       (handle_started_run env rec).2) := by
    simp [monitor_started_run, h1, h2, h3, h4, h5]
  constructor <;> rw [heq]
  · simp [List.filter_append, handle_no_resume, isResumeCall]
  · simp [List.count_append, List.count_cons, handle_count_plain_event, beq_iff_eq]

/-- C4 (witness): first resume attempt (prior count 0, max 1). -/
theorem c4_unhealthy_resume_witness :
    (monitor_started_run env4 rec4).1.filter isResumeCall =
      [MAction.resumeRun rec4.dagster_run.run_id
        (count_resume_run_attempts env4 rec4.dagster_run.run_id + 1)] ∧
    (monitor_started_run env4 rec4).1.count
      (MAction.reportEngineEvent (resumeMsg env4 rec4) rec4.dagster_run.run_id false)
      = 1 :=
  c4_unhealthy_resume env4 rec4 rfl rfl (by decide) rfl (by decide)

set_option maxRecDepth 4000 in
/-- C3 (counterexample): a monitoring attempt on a STARTED run with an
unhealthy worker, exhausted resume budget and a non-numeric max-runtime tag
raises (an error descriptor is yielded), yet has already requested a FAILURE
transition for the run — a failed monitoring attempt is not guaranteed to
leave the run status untouched. -/
theorem c3_failed_attempt_changed_status :
    ((processRun env3 rec3).2).isSome = true ∧
    (processRun env3 rec3).1.filter isTransition =
      [MAction.reportRunFailed "r3" (exhaustedMsg env3 rec3)] := by
  constructor <;> decide

/-- C3 (amended): a failed monitoring attempt has requested no status
transition at all, except in one case: a STARTED run whose unhealthy-worker
branch exhausted the resume budget reported the run failed before the
exception — the only transition a failed attempt can have requested is that
single report_run_failed carrying the exhausted-budget message. -/
theorem c3_failed_attempt_transitions (env : MonitorEnv) (rec : RunRecord)
    (h : ((processRun env rec).2).isSome = true) :
    (processRun env rec).1.filter isTransition = [] ∨
    (rec.dagster_run.status = RunStatus.STARTED ∧
      (processRun env rec).1.filter isTransition =
        [MAction.reportRunFailed rec.dagster_run.run_id (exhaustedMsg env rec)]) := by
  have hpr : (processRun env rec).1.filter isTransition =
      (dispatchRun env rec).1.filter isTransition := by
    simp [processRun, isTransition]
  have hpe : (processRun env rec).2 = (dispatchRun env rec).2 := rfl
  rw [hpe] at h
  rw [hpr]
  unfold dispatchRun at h ⊢
  cases hst : rec.dagster_run.status with
  | STARTING =>
    simp only [hst] at h ⊢
    left
    rcases monitor_starting_run_shape env rec with he | he | he | ⟨lt, he⟩ <;>
      rw [he] at h ⊢
    · simp
    · simp
    · simp at h
    · simp at h
  | STARTED =>
    simp only [hst] at h ⊢
    rcases monitor_started_run_shape env rec with
      he | he | ⟨cur, he⟩ | he | he | he <;> rw [he] at h ⊢
    · left; simp
    · left; simp
    · simp at h
    · left
      rw [handle_exn_trace_nil env rec h]
      simp
    · left
      rw [handle_exn_trace_nil env rec h]
      simp [isTransition]
    · right
      constructor
      · simp [hst]
      · rw [handle_exn_trace_nil env rec h]
        simp [isTransition]
  | CANCELING => simp only [hst] at h; simp at h
  | NOT_STARTED => left; simp only [hst]; simp
  | QUEUED => left; simp only [hst]; simp
  | CANCELED => left; simp only [hst]; simp
  | SUCCESS => left; simp only [hst]; simp
  | FAILURE => left; simp only [hst]; simp

/-- C3 (witness for the amended theorem at the concrete failing attempt). -/
theorem c3_failed_attempt_transitions_witness :
    (processRun env3 rec3).1.filter isTransition = [] ∨
    (rec3.dagster_run.status = RunStatus.STARTED ∧
      (processRun env3 rec3).1.filter isTransition =
        [MAction.reportRunFailed rec3.dagster_run.run_id (exhaustedMsg env3 rec3)]) :=
  c3_failed_attempt_transitions env3 rec3 (by decide)
